import Mathlib

/-!
Shallow embedding of `src/main.cpp` of ExcSerial: a Windows command-line
program that periodically writes alternating-sign framed integers to a
serial port.  Pure data (arguments, frame text) is modelled directly; the
interaction with the operating system (clock readings, the stop flag set by
the console control handler, the outcome of each WriteFile call, the success
of the Win32 configuration calls) is supplied by environments, and the two
loops of `main` are modelled fuel-bounded: `none` means the program is still
running after the given number of observations.
-/

namespace ExcSerial

/-- Semantics of the `std::stringstream` integer extraction used at lines
66-67 and 78-79 of `main.cpp`: leading whitespace is skipped, an optional
sign may precede the digits, and extraction fails exactly when no decimal
digit follows; characters after the digits are left unread. -/
def parseCppInt (s : String) : Option Int :=
  let cs := s.data.dropWhile (fun c => c.isWhitespace)
  let signAndRest : Bool × List Char :=
    match cs with
    | '-' :: rest => (true, rest)
    | '+' :: rest => (false, rest)
    | _ => (false, cs)
  let ds := signAndRest.2.takeWhile (fun c => c.isDigit)
  if ds.isEmpty then
    none
  else
    let v : Nat := ds.foldl (fun a c => a * 10 + (c.toNat - '0'.toNat)) 0
    some (if signAndRest.1 then -(v : Int) else (v : Int))

/-- Line 166: `std::format("#{},{},{},{};", n, n, n, n)` — the transmitted
frame: `#`, then the signed value rendered in decimal four times separated
by commas, then `;`. -/
def formatMsg (n : Int) : String :=
  "#" ++ toString n ++ "," ++ toString n ++ "," ++ toString n ++ ","
    ++ toString n ++ ";"

/-- Line 91: `std::chrono::milliseconds sleep_time_ms{1000 / f}`, with C++
`int` division (truncation toward zero). -/
def sleep_time_ms (f : Int) : Int := Int.tdiv 1000 f

/-- Environment of the send loop: the moment at which the console control
handler sets `gStopRequested` (line 27), the outcome of each `WriteFile`
call (line 168), and the successive `steady_clock` readings.  Every
observation the loop makes is assigned a slot on one shared monotone
timeline; `clock j` is the time of the `j`-th observation. -/
structure LoopEnv where
  stopAt : Option Nat
  writeOk : Nat → Bool
  clock : Nat → Nat

/-- Value of `gStopRequested` at time `t`: the flag starts false and is set
exactly once, at `stopAt` (lines 18 and 27); it is never reset. -/
def LoopEnv.stopped (e : LoopEnv) (t : Nat) : Bool :=
  match e.stopAt with
  | some s => decide (s ≤ t)
  | none => false

inductive ExitCode where
  | success
  | failure
deriving DecidableEq, Repr

/-- Observable outcome of the send loop (lines 157-191). -/
structure RunResult where
  payloads : List Int      -- the value `n` of each successful write, in order
  frames : List String     -- the bytes handed to each successful write
  sendTimes : List Nat     -- `last_send_time` stamped at each write attempt (line 163)
  messages_sent : Nat
  exit : ExitCode
  closes : Nat             -- number of `CloseHandle(hCom)` calls
deriving DecidableEq, Repr

/-- Mutable state of the send loop (lines 149-151 and the loop body). -/
structure LoopState where
  n : Int
  messages_sent : Nat
  last_send_time : Nat
  idx : Nat                -- next slot on the observation timeline
  payloads : List Int
  frames : List String
  sendTimes : List Nat
deriving Repr

/-- Lines 159-161: busy-wait, yielding the CPU between clock reads, while the
signed duration `now - last_send_time` is below `sleep_time_ms`; comparison
of signed durations is `(now : Int) < last + period`.  Returns the timeline
slot of the reading that released the wait, `none` when `fuel` readings were
not enough. -/
def busyWait (clock : Nat → Nat) (last : Nat) (period : Int) :
    Nat → Nat → Option Nat
  | 0, _ => none
  | fuel + 1, i =>
    if (clock i : Int) < (last : Int) + period then
      busyWait clock last period fuel (i + 1)
    else
      some i

/-- Lines 157-191: the send loop.  Each iteration reads `gStopRequested`
(line 157), busy-waits for the period (159-161), stamps `last_send_time`
(162-163), formats the frame (166) and writes it (168); on a failed write
the handle is closed and the program exits with `EXIT_FAILURE` (170-173),
on success `n` flips sign and the counter increments (175-176).  When the
stop flag is observed at the top of the loop, the loop exits, the handle is
closed and the program returns `EXIT_SUCCESS` (187-191).  The status print
(180-184) touches no modelled state.  `wfuel` bounds the clock readings of
one wait, `fuel` the loop iterations; `none` means still running. -/
def runLoop (e : LoopEnv) (period : Int) (wfuel : Nat) :
    Nat → LoopState → Option RunResult
  | 0, _ => none
  | fuel + 1, s =>
    if e.stopped (e.clock s.idx) then
      some ⟨s.payloads, s.frames, s.sendTimes, s.messages_sent, .success, 1⟩
    else
      match busyWait e.clock s.last_send_time period wfuel (s.idx + 1) with
      | none => none
      | some j =>
        if e.writeOk s.messages_sent then
          runLoop e period wfuel fuel
            ⟨-s.n, s.messages_sent + 1, e.clock j, j + 1,
             s.payloads ++ [s.n], s.frames ++ [formatMsg s.n],
             s.sendTimes ++ [e.clock j]⟩
        else
          some ⟨s.payloads, s.frames, s.sendTimes ++ [e.clock j],
                s.messages_sent, .failure, 1⟩

/-- Lines 149-151: the counter starts at zero and `last_send_time` at the
current clock reading; the loop then begins at timeline slot 1. -/
def initState (e : LoopEnv) (n0 : Int) : LoopState :=
  ⟨n0, 0, e.clock 0, 1, [], [], []⟩

/-- The send loop from its initial state: one whole run, observationally. -/
def runMain (e : LoopEnv) (n0 : Int) (period : Int) (wfuel fuel : Nat) :
    Option RunResult :=
  runLoop e period wfuel fuel (initState e n0)

/-- Environment of the startup phase of `main`: whether each Win32 call
succeeds, the text `error_string(GetLastError())` renders to, and the loop
environment used once the loop is entered. -/
structure SysEnv where
  createFileOk : Bool
  setCtrlHandlerOk : Bool
  getCommStateOk : Bool
  setCommTimeoutsOk : Bool
  osError : String
  loop : LoopEnv

inductive ProgExit where
  | success
  | failure
  | divByZero   -- line 91 reached with `f = 0`: `1000 / 0`, undefined in C++
deriving DecidableEq, Repr

/-- Observable outcome of a whole invocation of `main`. -/
structure ProgResult where
  exit : ProgExit
  closes : Nat             -- number of `CloseHandle(hCom)` calls
  opened : Bool            -- `CreateFile` returned a valid handle
  enteredLoop : Bool       -- control reached `while (!gStopRequested)`
  stderrMsgs : List String
  payloads : List Int
  frames : List String
  sendTimes : List Nat
  messages_sent : Nat
deriving DecidableEq, Repr

/-- `main` of `src/main.cpp` (lines 53-192).  With fewer than four
arguments the usage text is printed and the program exits successfully
(54-59).  `argv[2]` and `argv[3]` are extracted as integers (63-90): on a
failed extraction the diagnostic echoes `argv[2]` in both cases — line 82
echoes `argv[2]` even though it is `argv[3]` that failed — and with
`f > 1000` the frequency is rejected.  Line 91 divides `1000 / f`, which is
undefined for `f = 0` (modelled as the `divByZero` outcome).  Then
`CreateFile` (96-104), `SetConsoleCtrlHandler` (108-112, exits WITHOUT
closing the handle), `GetCommState` (119-124, a failure is only reported —
execution continues), `SetCommTimeouts` (140-145, closes the handle and
exits) and finally the send loop. -/
def excserialMain (args : List String) (env : SysEnv) (wfuel fuel : Nat) :
    Option ProgResult :=
  match args with
  | _ :: comport :: arg2 :: arg3 :: _ =>
    match parseCppInt arg2 with
    | none =>
      some ⟨.failure, 0, false, false,
        ["Can't convert arg " ++ arg2 ++ " to number!"], [], [], [], 0⟩
    | some n =>
      match parseCppInt arg3 with
      | none =>
        some ⟨.failure, 0, false, false,
          ["Can't convert arg " ++ arg2 ++ " to number!"], [], [], [], 0⟩
      | some f =>
        if f > 1000 then
          some ⟨.failure, 0, false, false,
            ["Frequency cant be bigger than 1000"], [], [], [], 0⟩
        else if f = 0 then
          some ⟨.divByZero, 0, false, false, [], [], [], [], 0⟩
        else
          if env.createFileOk then
            if env.setCtrlHandlerOk then
              if env.setCommTimeoutsOk then
                match runLoop env.loop (sleep_time_ms f) wfuel fuel
                    (initState env.loop n) with
                | none => none
                | some r =>
                  some ⟨(match r.exit with
                          | .success => ProgExit.success
                          | .failure => ProgExit.failure),
                        r.closes, true, true,
                        (if env.getCommStateOk then [] else
                          ["GetCommState filed with error " ++ env.osError])
                          ++ (match r.exit with
                              | .failure =>
                                ["Failed to write to " ++ comport
                                  ++ " with error: " ++ env.osError]
                              | .success => []),
                        r.payloads, r.frames, r.sendTimes, r.messages_sent⟩
              else
                some ⟨.failure, 1, true, false,
                  (if env.getCommStateOk then [] else
                    ["GetCommState filed with error " ++ env.osError])
                    ++ ["Could not set timeouts with error: " ++ env.osError],
                  [], [], [], 0⟩
            else
              some ⟨.failure, 0, true, false,
                ["Failed to set control handler: " ++ env.osError],
                [], [], [], 0⟩
          else
            some ⟨.failure, 0, false, false,
              ["CreateFile failed with error: " ++ env.osError],
              [], [], [], 0⟩
  | _ =>
    some ⟨.success, 0, false, false, [], [], [], [], 0⟩

/-- Payload sequence produced by line 175 (`n *= -1` after each successful
write): `m` successive values starting from `n`, each the negation of the
one before. -/
def altFrom (n : Int) : Nat → List Int
  | 0 => []
  | m + 1 => n :: altFrom (-n) m

/-- Identity timeline: observation `i` happens at time `i` ms. -/
def clockId : Nat → Nat := fun i => i

/-- Run in which the stop flag is set at time 3, while the first cycle's
busy-wait (period 10) is in progress; all writes succeed. -/
def e1 : LoopEnv := ⟨some 3, fun _ => true, clockId⟩

/-- Outcome of `runMain e1 20 10 12 5`. -/
def r1 : RunResult := ⟨[20], ["#20,20,20,20;"], [10], 1, .success, 1⟩

/-- Run with period 2 in which the stop flag is set at time 7, after three
successful writes; all writes succeed. -/
def e3 : LoopEnv := ⟨some 7, fun _ => true, clockId⟩

/-- Outcome of `runMain e3 20 2 3 6`. -/
def r3 : RunResult :=
  ⟨[20, -20, 20], ["#20,20,20,20;", "#-20,-20,-20,-20;", "#20,20,20,20;"],
   [2, 4, 6], 3, .success, 1⟩

/-- Run in which the stop flag is never set and the fifth write attempt
(index 4) fails. -/
def e5 : LoopEnv := ⟨none, fun k => decide (k < 4), clockId⟩

/-- Outcome of `runMain e5 20 2 3 7`. -/
def r5 : RunResult :=
  ⟨[20, -20, 20, -20],
   ["#20,20,20,20;", "#-20,-20,-20,-20;", "#20,20,20,20;", "#-20,-20,-20,-20;"],
   [2, 4, 6, 8, 10], 4, .failure, 1⟩

/-- Loop environment whose stop flag is already set when the loop starts. -/
def eStop : LoopEnv := ⟨some 0, fun _ => true, clockId⟩

/-- A well-formed command line: port `COM3`, magnitude 10, frequency 500. -/
def args4 : List String := ["excserial", "COM3", "10", "500"]

/-- Startup environment in which `SetConsoleCtrlHandler` fails. -/
def envCtrl : SysEnv := ⟨true, false, true, true, "E", e3⟩

/-- Startup environment in which every Win32 call succeeds. -/
def envOk : SysEnv := ⟨true, true, true, true, "E", e3⟩

/-- Outcome of `excserialMain args4 envOk 3 6`. -/
def rOk : ProgResult :=
  ⟨.success, 1, true, true, [], [10, -10, 10],
   ["#10,10,10,10;", "#-10,-10,-10,-10;", "#10,10,10,10;"], [2, 4, 6], 3⟩

/-- Startup environment in which `GetCommState` fails and the loop stops at
once. -/
def envGcs : SysEnv := ⟨true, true, false, true, "E", eStop⟩

/-- Startup environment in which `SetCommTimeouts` fails. -/
def envTO : SysEnv := ⟨true, true, true, false, "E", e3⟩

/-- Outcome of `excserialMain args4 envTO 3 6`. -/
def rTO : ProgResult :=
  ⟨.failure, 1, true, false, ["Could not set timeouts with error: E"],
   [], [], [], 0⟩

theorem altFrom_eq_ofFn (m : Nat) : ∀ n : Int,
    altFrom n m = List.ofFn (fun i : Fin m => (-1) ^ (i : Nat) * n) := by
  induction m with
  | zero => intro n; rfl
  | succ m ih =>
    intro n
    rw [List.ofFn_succ, altFrom, ih (-n)]
    congr 1
    · simp
    · congr 1
      funext i
      simp only [Fin.val_succ, pow_succ]
      ring

theorem altFrom_length (n : Int) (m : Nat) : (altFrom n m).length = m := by
  rw [altFrom_eq_ofFn]; simp

theorem busyWait_some (clock : Nat → Nat) (last : Nat) (p : Int) :
    ∀ (wfuel i j : Nat), busyWait clock last p wfuel i = some j →
      i ≤ j ∧ (last : Int) + p ≤ (clock j : Int) := by
  intro wfuel
  induction wfuel with
  | zero => intro i j h; simp [busyWait] at h
  | succ wfuel ih =>
    intro i j h
    rw [busyWait] at h
    split at h
    · obtain ⟨h1, h2⟩ := ih (i + 1) j h
      exact ⟨by omega, h2⟩
    · injection h with h
      subst h
      rename_i hcond
      exact ⟨le_refl i, by omega⟩

/-- Structure of every terminating run of the send loop, relative to a
starting state: the writes that succeeded alternate in sign starting from
the current value, the counter advances by exactly their number, the frames
are the formatted payloads, and the handle is closed exactly once. -/
theorem runLoop_inv (e : LoopEnv) (p : Int) (w : Nat) :
    ∀ (fuel : Nat) (s : LoopState) (r : RunResult),
      runLoop e p w fuel s = some r →
      ∃ m, r.messages_sent = s.messages_sent + m ∧
        r.payloads = s.payloads ++ altFrom s.n m ∧
        r.frames = s.frames ++ (altFrom s.n m).map formatMsg ∧
        r.closes = 1 := by
  intro fuel
  induction fuel with
  | zero => intro s r h; simp [runLoop] at h
  | succ fuel ih =>
    intro s r h
    rw [runLoop] at h
    split at h
    · injection h with h
      subst h
      exact ⟨0, by simp [altFrom]⟩
    · split at h
      · simp at h
      · split at h
        · obtain ⟨m, h1, h2, h3, h4⟩ := ih _ r h
          dsimp only at h1 h2 h3
          refine ⟨m + 1, by omega, ?_, ?_, h4⟩
          · rw [h2, altFrom]
            simp
          · rw [h3, altFrom]
            simp
        · injection h with h
          subst h
          exact ⟨0, by simp [altFrom]⟩

/-- When no write ever fails, a terminating run exits with the success
code: the only other exit of the loop is a failed `WriteFile`. -/
theorem runLoop_success (e : LoopEnv) (p : Int) (w : Nat)
    (hw : ∀ k, e.writeOk k = true) :
    ∀ (fuel : Nat) (s : LoopState) (r : RunResult),
      runLoop e p w fuel s = some r → r.exit = ExitCode.success := by
  intro fuel
  induction fuel with
  | zero => intro s r h; simp [runLoop] at h
  | succ fuel ih =>
    intro s r h
    rw [runLoop] at h
    split at h
    · injection h with h; subst h; rfl
    · split at h
      · simp at h
      · split at h
        · exact ih _ r h
        · rename_i hwk
          rw [hw _] at hwk
          simp at hwk

/-- Every write attempt except possibly the last one is stamped strictly
before the stop flag is set: the flag is read at the top of each cycle, so
a new cycle (hence a further write) only begins while the flag is still
false. -/
theorem runLoop_times_lt_stop (e : LoopEnv) (p : Int) (w t : Nat)
    (hstop : e.stopAt = some t)
    (hmono : ∀ i j : Nat, i ≤ j → e.clock i ≤ e.clock j) :
    ∀ (fuel : Nat) (s : LoopState) (r : RunResult),
      runLoop e p w fuel s = some r →
      (∀ x ∈ s.sendTimes.dropLast, x < t) →
      (∀ x ∈ s.sendTimes, x ≤ e.clock s.idx) →
      ∀ x ∈ r.sendTimes.dropLast, x < t := by
  intro fuel
  induction fuel with
  | zero => intro s r h _ _; simp [runLoop] at h
  | succ fuel ih =>
    intro s r h hd hb
    rw [runLoop] at h
    split at h
    · injection h with h; subst h; exact hd
    · rename_i hns
      have hlt : e.clock s.idx < t := by
        simp [LoopEnv.stopped, hstop] at hns
        omega
      have hall : ∀ x ∈ s.sendTimes, x < t := fun x hx =>
        lt_of_le_of_lt (hb x hx) hlt
      split at h
      · simp at h
      · rename_i j hj
        obtain ⟨hij, _⟩ := busyWait_some e.clock s.last_send_time p w (s.idx + 1) j hj
        split at h
        · apply ih _ r h
          · dsimp only
            intro x hx
            rw [List.dropLast_concat] at hx
            exact hall x hx
          · dsimp only
            intro x hx
            rcases List.mem_append.mp hx with hx | hx
            · exact le_trans (hb x hx) (hmono _ _ (by omega))
            · simp at hx
              subst hx
              exact hmono _ _ (by omega)
        · injection h with h
          subst h
          dsimp only
          intro x hx
          rw [List.dropLast_concat] at hx
          exact hall x hx

/-- The busy-wait never releases a write early: in every terminating run
the stamped write times, read left to right, are spaced by at least the
period. -/
theorem runLoop_chain (e : LoopEnv) (p : Int) (w : Nat) :
    ∀ (fuel : Nat) (s : LoopState) (r : RunResult),
      runLoop e p w fuel s = some r →
      List.Chain' (fun a b : Nat => (a : Int) + p ≤ b) s.sendTimes →
      (s.sendTimes = [] ∨ s.sendTimes.getLast? = some s.last_send_time) →
      List.Chain' (fun a b : Nat => (a : Int) + p ≤ b) r.sendTimes := by
  intro fuel
  induction fuel with
  | zero => intro s r h _ _; simp [runLoop] at h
  | succ fuel ih =>
    intro s r h hc hl
    rw [runLoop] at h
    split at h
    · injection h with h; subst h; exact hc
    · split at h
      · simp at h
      · rename_i j hj
        obtain ⟨hij, hler⟩ := busyWait_some e.clock s.last_send_time p w (s.idx + 1) j hj
        have hcc : List.Chain' (fun a b : Nat => (a : Int) + p ≤ b)
            (s.sendTimes ++ [e.clock j]) := by
          rw [List.chain'_append]
          refine ⟨hc, List.chain'_singleton _, ?_⟩
          intro x hx y hy
          simp at hy
          subst hy
          rcases hl with hl | hl
          · rw [hl] at hx
            simp at hx
          · rw [hl] at hx
            simp at hx
            subst hx
            exact hler
        split at h
        · apply ih _ r h
          · exact hcc
          · right
            dsimp only
            simp
        · injection h with h
          subst h
          exact hcc

/-- Shape of every terminating invocation that got past `CreateFile` and
`SetConsoleCtrlHandler`: the handle is closed exactly once, the send loop
is entered exactly when `SetCommTimeouts` succeeded, and a `SetCommTimeouts`
failure exits with `EXIT_FAILURE`. -/
theorem excserialMain_post_open (args : List String) (env : SysEnv)
    (w fl : Nat) (r : ProgResult)
    (h : excserialMain args env w fl = some r)
    (ho : r.opened = true) (hc : env.setCtrlHandlerOk = true) :
    r.closes = 1 ∧ r.enteredLoop = env.setCommTimeoutsOk ∧
      (env.setCommTimeoutsOk = false → r.exit = ProgExit.failure) := by
  rcases args with _ | ⟨a0, args⟩
  · simp only [excserialMain] at h
    injection h with h; subst h; simp at ho
  rcases args with _ | ⟨a1, args⟩
  · simp only [excserialMain] at h
    injection h with h; subst h; simp at ho
  rcases args with _ | ⟨a2, args⟩
  · simp only [excserialMain] at h
    injection h with h; subst h; simp at ho
  rcases args with _ | ⟨a3, args⟩
  · simp only [excserialMain] at h
    injection h with h; subst h; simp at ho
  simp only [excserialMain] at h
  cases hp2 : parseCppInt a2 with
  | none =>
    simp only [hp2] at h
    injection h with h; subst h; simp at ho
  | some n =>
    simp only [hp2] at h
    cases hp3 : parseCppInt a3 with
    | none =>
      simp only [hp3] at h
      injection h with h; subst h; simp at ho
    | some f =>
      simp only [hp3] at h
      by_cases hf1 : f > 1000
      · rw [if_pos hf1] at h
        injection h with h; subst h; simp at ho
      · rw [if_neg hf1] at h
        by_cases hf0 : f = 0
        · rw [if_pos hf0] at h
          injection h with h; subst h; simp at ho
        · rw [if_neg hf0] at h
          cases hcf : env.createFileOk with
          | false =>
            rw [hcf, if_neg Bool.false_ne_true] at h
            injection h with h; subst h; simp at ho
          | true =>
            rw [hcf, if_pos rfl, hc, if_pos rfl] at h
            cases hto : env.setCommTimeoutsOk with
            | false =>
              rw [hto, if_neg Bool.false_ne_true] at h
              injection h with h
              subst h
              exact ⟨rfl, rfl, fun _ => rfl⟩
            | true =>
              rw [hto, if_pos rfl] at h
              cases hrl : runLoop env.loop (sleep_time_ms f) w fl
                  (initState env.loop n) with
              | none =>
                rw [hrl] at h
                exact Option.noConfusion h
              | some rl =>
                rw [hrl] at h
                injection h with h
                subst h
                obtain ⟨m, _, _, _, h4⟩ := runLoop_inv env.loop
                  (sleep_time_ms f) w fl (initState env.loop n) rl hrl
                refine ⟨h4, rfl, ?_⟩
                intro hff
                simp at hff

/-- Claim C2 (confirmed): in every run the payloads of consecutive
successful writes are negations of one another — the sign of the
transmitted value strictly alternates, `value(k+1) = -value(k)`. -/
theorem payload_sign_alternates (e : LoopEnv) (n0 period : Int) (w fl : Nat)
    (r : RunResult) (h : runMain e n0 period w fl = some r)
    (k : Nat) (hk : k + 1 < r.payloads.length) :
    r.payloads.get ⟨k + 1, hk⟩ =
      -r.payloads.get ⟨k, Nat.lt_of_succ_lt hk⟩ := by
  rw [runMain] at h
  obtain ⟨m, h1, h2, h3, h4⟩ := runLoop_inv e period w fl (initState e n0) r h
  dsimp only [initState] at h2
  rw [List.nil_append] at h2
  simp only [List.get_eq_getElem]
  simp only [h2, altFrom_eq_ofFn, List.getElem_ofFn]
  rw [pow_succ]
  ring

/-- Claim C3 (confirmed): in every run started from value `n0` each
transmitted payload is `n0` or `-n0`, so its magnitude equals the
caller-supplied magnitude `n0.natAbs` in every frame; only the sign
changes. -/
theorem payload_magnitude_invariant (e : LoopEnv) (n0 period : Int)
    (w fl : Nat) (r : RunResult) (h : runMain e n0 period w fl = some r) :
    ∀ x ∈ r.payloads, x.natAbs = n0.natAbs ∧ (x = n0 ∨ x = -n0) := by
  rw [runMain] at h
  obtain ⟨m, _, h2, _, _⟩ := runLoop_inv e period w fl (initState e n0) r h
  dsimp only [initState] at h2
  rw [List.nil_append] at h2
  intro x hx
  rw [h2, altFrom_eq_ofFn, List.mem_ofFn, Set.mem_range] at hx
  obtain ⟨i, hi⟩ := hx
  subst hi
  constructor
  · simp [Int.natAbs_mul, Int.natAbs_pow]
  · rcases Nat.even_or_odd (i : Nat) with hpar | hpar
    · left
      rw [hpar.neg_one_pow, one_mul]
    · right
      rw [hpar.neg_one_pow, neg_one_mul]

/-- Claim C4 (confirmed): the sent-message counter starts at 0 and in every
terminating run equals the number of successful writes — it advances by
exactly 1 per successful write and is never changed while waiting or by the
(fatal) failed write. -/
theorem counter_counts_successful_writes (e : LoopEnv) (n0 period : Int)
    (w fl : Nat) (r : RunResult) (h : runMain e n0 period w fl = some r) :
    r.messages_sent = r.payloads.length := by
  rw [runMain] at h
  obtain ⟨m, h1, h2, _, _⟩ := runLoop_inv e period w fl (initState e n0) r h
  dsimp only [initState] at h1 h2
  rw [List.nil_append] at h2
  rw [h1, h2, altFrom_length]
  omega

/-- Claim C5 (confirmed): in every run the transmitted frames are exactly
the alternating payloads rendered by `formatMsg`, i.e. the ASCII text
`#<v>,<v>,<v>,<v>;` with the current signed decimal value in all four
fields and no newline. -/
theorem frames_are_formatted_payloads (e : LoopEnv) (n0 period : Int)
    (w fl : Nat) (r : RunResult) (h : runMain e n0 period w fl = some r) :
    r.frames = (altFrom n0 r.messages_sent).map formatMsg := by
  rw [runMain] at h
  obtain ⟨m, h1, _, h3, _⟩ := runLoop_inv e period w fl (initState e n0) r h
  dsimp only [initState] at h1 h3
  rw [List.nil_append] at h3
  rw [h3, h1, Nat.zero_add]

/-- Claim C6 (confirmed): for a frequency `f` in (0, 1000] the derived
period is `floor(1000 / f)` milliseconds, and in every run the write times
are spaced by at least that period — the busy-wait never releases a send
early. -/
theorem period_is_floor_and_sends_spaced (f : Int) (hf : 0 < f)
    (hf2 : f ≤ 1000) (e : LoopEnv) (n0 : Int) (w fl : Nat) (r : RunResult)
    (h : runMain e n0 (sleep_time_ms f) w fl = some r) :
    sleep_time_ms f = ((1000 / f.toNat : Nat) : Int) ∧
    List.Chain' (fun a b : Nat => (a : Int) + sleep_time_ms f ≤ b)
      r.sendTimes := by
  constructor
  · obtain ⟨k, rfl⟩ : ∃ k : Nat, f = (k : Int) :=
      ⟨f.toNat, (Int.toNat_of_nonneg hf.le).symm⟩
    rw [Int.toNat_natCast]
    rfl
  · rw [runMain] at h
    apply runLoop_chain e (sleep_time_ms f) w fl (initState e n0) r h
    · dsimp only [initState]
      exact List.chain'_nil
    · left
      rfl

/-- Claim C1 (corrected): the stop flag is read only at the top-of-cycle
check (line 157), never inside the busy-wait (lines 159-161).  What holds:
with the flag set at time `t`, every write attempt except possibly the last
one is stamped strictly before `t`, and when no write fails the run exits
with the success code — so nothing beyond the one cycle already past its
top-of-loop check is written after the flag is set.  The original claim's
stronger statement, that a flag set during the wait cancels that cycle's
write, is refuted by `stop_during_wait_write_still_sent`. -/
theorem stop_checked_only_at_cycle_top (e : LoopEnv) (n0 period : Int)
    (w fl t : Nat)
    (hmono : ∀ i j : Nat, i ≤ j → e.clock i ≤ e.clock j)
    (hstop : e.stopAt = some t) (r : RunResult)
    (h : runMain e n0 period w fl = some r) :
    (∀ x ∈ r.sendTimes.dropLast, x < t) ∧
    ((∀ k, e.writeOk k = true) → r.exit = ExitCode.success) := by
  rw [runMain] at h
  constructor
  · apply runLoop_times_lt_stop e period w t hstop hmono fl (initState e n0) r h
    · intro x hx
      simp [initState] at hx
    · intro x hx
      simp [initState] at hx
  · intro hw
    exact runLoop_success e period w hw fl (initState e n0) r h

/-- Claim C1 counterexample: in `e1` the first top-of-loop check happens at
time 1 (flag still false), the busy-wait for the 10 ms period then runs
until time 10, and the flag is set at time 3 — during the wait.  The claim
says the loop must exit without performing that cycle's write; the code
performs the write (one frame, stamped at time 10, after the flag was set)
and exits, successfully, only at the next top-of-loop check. -/
theorem stop_during_wait_write_still_sent :
    e1.stopAt = some 3 ∧ e1.clock 1 = 1 ∧
    runMain e1 20 10 12 5 = some r1 ∧
    r1.sendTimes = [10] ∧ r1.frames.length = 1 ∧
    r1.exit = ExitCode.success :=
  ⟨rfl, rfl, by decide, rfl, rfl, rfl⟩

theorem stop_checked_only_at_cycle_top_witness :
    (∀ x ∈ r1.sendTimes.dropLast, x < 3) ∧
    ((∀ k, e1.writeOk k = true) → r1.exit = ExitCode.success) :=
  stop_checked_only_at_cycle_top e1 20 10 12 5 3 (fun _ _ hij => hij) rfl r1
    (by decide)

theorem payload_sign_alternates_witness :
    runMain e3 20 2 3 6 = some r3 ∧
    r3.payloads.get ⟨1, by decide⟩ = -r3.payloads.get ⟨0, by decide⟩ :=
  ⟨by decide, payload_sign_alternates e3 20 2 3 6 r3 (by decide) 0 (by decide)⟩

theorem payload_magnitude_invariant_witness :
    runMain e3 20 2 3 6 = some r3 ∧
    ∀ x ∈ r3.payloads, x.natAbs = (20 : Int).natAbs ∧ (x = 20 ∨ x = -20) :=
  ⟨by decide, payload_magnitude_invariant e3 20 2 3 6 r3 (by decide)⟩

theorem counter_counts_successful_writes_witness :
    runMain e5 20 2 3 7 = some r5 ∧
    r5.messages_sent = r5.payloads.length ∧
    r5.messages_sent = 4 ∧ r5.exit = ExitCode.failure ∧
    e5.writeOk 4 = false :=
  ⟨by decide, counter_counts_successful_writes e5 20 2 3 7 r5 (by decide),
   rfl, rfl, by decide⟩

theorem frames_are_formatted_payloads_witness :
    runMain e3 20 2 3 6 = some r3 ∧
    r3.frames = (altFrom 20 r3.messages_sent).map formatMsg ∧
    r3.frames = ["#20,20,20,20;", "#-20,-20,-20,-20;", "#20,20,20,20;"] :=
  ⟨by decide, frames_are_formatted_payloads e3 20 2 3 6 r3 (by decide), rfl⟩

theorem period_is_floor_and_sends_spaced_witness :
    sleep_time_ms 500 = ((1000 / (500 : Int).toNat : Nat) : Int) ∧
    List.Chain' (fun a b : Nat => (a : Int) + sleep_time_ms 500 ≤ b)
      r3.sendTimes :=
  period_is_floor_and_sends_spaced 500 (by decide) (by decide) e3 20 3 6 r3
    (by decide)

/-- Claim C7 counterexample: with valid arguments and a successful open, a
`SetConsoleCtrlHandler` failure makes `main` return `EXIT_FAILURE` at lines
108-112 without calling `CloseHandle` — an exit path reached after the
channel was opened on which the handle is closed zero times, not once. -/
theorem ctrl_handler_failure_leaks_handle :
    excserialMain args4 envCtrl 3 6 =
      some ⟨.failure, 0, true, false,
        ["Failed to set control handler: E"], [], [], [], 0⟩ := by
  decide

/-- Claim C7 (corrected): after the channel is opened the handle is closed
exactly once on the clean stop-signal path, on a write failure and on a
timeout-configuration failure — that is, on every post-open exit path
except the interrupt-handler-registration failure, which exits without
closing the handle (`ctrl_handler_failure_leaks_handle`); a line-settings
read failure is not an exit path at all, since execution continues. -/
theorem handle_closed_once_except_ctrl_path (args : List String)
    (env : SysEnv) (w fl : Nat) (r : ProgResult)
    (h : excserialMain args env w fl = some r)
    (ho : r.opened = true) (hc : env.setCtrlHandlerOk = true) :
    r.closes = 1 :=
  (excserialMain_post_open args env w fl r h ho hc).1

theorem handle_closed_once_except_ctrl_path_witness :
    excserialMain args4 envOk 3 6 = some rOk ∧ rOk.opened = true ∧
    envOk.setCtrlHandlerOk = true ∧ rOk.closes = 1 :=
  ⟨by decide, rfl, rfl,
   handle_closed_once_except_ctrl_path args4 envOk 3 6 rOk (by decide) rfl rfl⟩

/-- Claim C8 counterexample: with every other call succeeding, a
`GetCommState` failure is reported to the error stream but is NOT fatal:
the run enters the transmission loop and here even exits with the success
code, against the claim that every configuration failure, including a
line-settings read failure, exits with the failure code before the loop. -/
theorem getcommstate_failure_enters_loop :
    excserialMain args4 envGcs 3 6 =
      some ⟨.success, 1, true, true,
        ["GetCommState filed with error E"], [], [], [], 0⟩ := by
  decide

/-- Claim C8 (corrected): of the configuration steps, only the
`SetCommTimeouts` failure is fatal at startup — it closes the handle,
exits with the failure code and never enters the loop — while a failure to
read the current line settings (`GetCommState`) is merely reported: the
transmission loop is entered regardless
(`getcommstate_failure_enters_loop`). -/
theorem timeouts_fatal_but_commstate_not (args : List String)
    (env : SysEnv) (w fl : Nat) (r : ProgResult)
    (h : excserialMain args env w fl = some r)
    (ho : r.opened = true) (hc : env.setCtrlHandlerOk = true) :
    (env.setCommTimeoutsOk = false →
      r.enteredLoop = false ∧ r.exit = ProgExit.failure ∧ r.closes = 1) ∧
    (env.setCommTimeoutsOk = true → r.enteredLoop = true) := by
  obtain ⟨h1, h2, h3⟩ := excserialMain_post_open args env w fl r h ho hc
  constructor
  · intro hf
    exact ⟨by rw [h2, hf], h3 hf, h1⟩
  · intro ht
    rw [h2, ht]

theorem timeouts_fatal_but_commstate_not_witness :
    excserialMain args4 envTO 3 6 = some rTO ∧
    (envTO.setCommTimeoutsOk = false →
      rTO.enteredLoop = false ∧ rTO.exit = ProgExit.failure ∧
        rTO.closes = 1) ∧
    (envTO.setCommTimeoutsOk = true → rTO.enteredLoop = true) := by
  have hh := timeouts_fatal_but_commstate_not args4 envTO 3 6 rTO
    (by decide) rfl rfl
  exact ⟨by decide, hh.1, hh.2⟩

/-- Claim C9 (code bug): when the frequency argument fails to parse, the
diagnostic printed before the failure exit echoes `argv[2]` — the magnitude
argument, which did parse — instead of the offending `argv[3]`: line 82 of
`main.cpp` reuses `argv[2]` in the frequency error message.  Here the
frequency argument is `xyz` but the message echoes `10`. -/
theorem freq_parse_error_echoes_magnitude_arg (env : SysEnv) (w fl : Nat) :
    excserialMain ["excserial", "COM3", "10", "xyz"] env w fl =
      some ⟨.failure, 0, false, false,
        ["Can't convert arg 10 to number!"], [], [], [], 0⟩ := rfl

/-- Claim C10 (confirmed): the frequency input `0` parses as the integer 0
and passes the only frequency guard (`f > 1000`), so `main` reaches the
period derivation of line 91 and evaluates `1000 / 0` with a zero divisor
— undefined behavior in C++, modelled by the distinguished `divByZero`
outcome; no guard rejects a non-positive frequency first. -/
theorem zero_frequency_reaches_division (env : SysEnv) (w fl : Nat) :
    parseCppInt "0" = some 0 ∧ ¬((0 : Int) > 1000) ∧
    excserialMain ["excserial", "COM3", "10", "0"] env w fl =
      some ⟨.divByZero, 0, false, false, [], [], [], [], 0⟩ :=
  ⟨rfl, by decide, rfl⟩

end ExcSerial
